import Mathlib

/-!
Verification development for `src/tools/demo_simple.py`.

The script defines a single function `demo_verification` that takes no
arguments and executes a straight line of `print` calls.  We embed it as the
ordered list of strings passed to `print`; the full byte output of a run is
each element followed by a newline.  The three SMT-LIB text blocks bound to
`ambiguity_formula`, `orthogonality_formula` and `feature_formula` are
embedded line by line (the Python triple-quoted literals open and close with
a newline, hence the empty first and last lines), and the string constants
are recovered by joining the lines with newlines.

The repository contains no Document Analyzer, Formula Builder, Solver
Adapter or Report implementation; where a claim concerns those components we
model them from the specification, and each such definition is marked
`Modelled from the spec:` in its doc comment.
-/

/-- Lines of the SMT-LIB text bound to `ambiguity_formula` in
`demo_verification` (source lines 17-38). -/
def ambiguity_formula_lines : List String :=
  ["",
   ";; AISP Ambiguity Verification Formula",
   ";; Verifies Ambig(D) = 1 - |Parse_u(D)| / |Parse_t(D)| < 0.02",
   "",
   "(declare-const ambiguity Real)",
   "(declare-const unique_parses Int)",
   "(declare-const total_parses Int)",
   "(declare-const document_ambiguity Real)",
   "",
   ";; Document parsing results",
   "(assert (= unique_parses 985))",
   "(assert (= total_parses 1000))",
   "",
   ";; Ambiguity calculation: Ambig(D) = 1 - |Parse_u(D)| / |Parse_t(D)|",
   "(assert (= document_ambiguity (- 1.0 (/ (to_real unique_parses) (to_real total_parses)))))",
   "",
   ";; Reference.md requirement: Ambig(D) < 0.02",
   "(assert (< document_ambiguity 0.02))",
   "",
   "(check-sat)",
   "(get-model)",
   ""]

/-- The SMT-LIB text bound to `ambiguity_formula` in the source. -/
def ambiguity_formula : String := String.intercalate "\n" ambiguity_formula_lines

/-- Lines of the SMT-LIB text bound to `orthogonality_formula` in
`demo_verification` (source lines 50-76); trailing spaces of the source are
preserved. -/
def orthogonality_formula_lines : List String :=
  ["",
   ";; AISP Tri-Vector Orthogonality Verification",
   ";; Verifies V_H ∩ V_S ≡ ∅ and V_L ∩ V_S ≡ ∅",
   "",
   "(declare-sort Vector)",
   "(declare-fun vh_space () (Set Vector))",
   "(declare-fun vl_space () (Set Vector))  ",
   "(declare-fun vs_space () (Set Vector))",
   "(declare-fun dot_product (Vector Vector) Real)",
   "",
   ";; Orthogonality axiom: ∀v1 ∈ V_i, v2 ∈ V_j: v1 · v2 = 0",
   "(assert (forall ((v1 Vector) (v2 Vector))",
   "    (=> (and (member v1 vh_space) (member v2 vs_space))",
   "        (= (dot_product v1 v2) 0.0))))",
   "",
   ";; Safety isolation: V_H ∩ V_S ≡ ∅ ",
   "(assert (= (intersection vh_space vs_space) (as emptyset (Set Vector))))",
   "(assert (= (intersection vl_space vs_space) (as emptyset (Set Vector))))",
   "",
   ";; Dimension constraints (1536 total)",
   "(declare-const vh_dim Int)",
   "(declare-const vl_dim Int)",
   "(declare-const vs_dim Int)",
   "(assert (= (+ vh_dim vl_dim vs_dim) 1536))",
   "",
   "(check-sat)",
   ""]

/-- The SMT-LIB text bound to `orthogonality_formula` in the source. -/
def orthogonality_formula : String := String.intercalate "\n" orthogonality_formula_lines

/-- Lines of the SMT-LIB text bound to `feature_formula` in
`demo_verification` (source lines 88-110); trailing spaces of the source are
preserved. -/
def feature_formula_lines : List String :=
  ["",
   ";; AISP Feature Verification Formula",
   ";; Verifies presence and implementation of required AISP features",
   "",
   "(declare-const has_meta_block Bool)",
   "(declare-const has_types_block Bool)",
   "(declare-const has_rules_block Bool)",
   "(declare-const feature_implemented Bool)",
   "",
   ";; Feature presence assertions (based on actual document parsing)",
   "(assert (= has_meta_block true))",
   "(assert (= has_types_block true)) ",
   "(assert (= has_rules_block true))",
   "",
   ";; Implementation verification  ",
   "(assert (= feature_implemented (and has_meta_block has_types_block has_rules_block)))",
   "",
   ";; Reference.md compliance requirement",
   "(assert (= feature_implemented true))",
   "",
   "(check-sat)",
   "(get-value (has_meta_block has_types_block has_rules_block feature_implemented))",
   ""]

/-- The SMT-LIB text bound to `feature_formula` in the source. -/
def feature_formula : String := String.intercalate "\n" feature_formula_lines

/-- Embedding of `demo_verification` (source lines 9-134): the function takes
no arguments, and its body is a straight line of `print` calls; we record the
strings passed to `print`, in order. -/
def demo_verification : List String :=
  ["🔬 AISP Formal Verification Demonstration",
   "============\x3d============\x3d============\x3d==\n",
   "1️⃣ AMBIGUITY VERIFICATION",
   "============\x3d============",
   "Generated SMT Formula:",
   ambiguity_formula,
   "✅ Contains proper variable declarations and mathematical constraints",
   "✅ Implements genuine Ambig(D) = 1 - |Parse_u(D)| / |Parse_t(D)| calculation",
   "✅ Verifies reference.md requirement < 0.02\n",
   "2️⃣ TRI-VECTOR ORTHOGONALITY",
   "============\x3d============\x3d=",
   "Generated SMT Formula:",
   orthogonality_formula,
   "✅ Contains genuine vector space theory",
   "✅ Implements formal orthogonality proofs V_H ∩ V_S ≡ ∅",
   "✅ Uses proper set intersection and dot product constraints\n",
   "3️⃣ FEATURE VERIFICATION",
   "============\x3d==========",
   "Generated SMT Formula:",
   feature_formula,
   "✅ Based on actual document structure parsing",
   "✅ No hardcoded return values - real verification",
   "✅ Checks genuine AISP feature implementation\n",
   "🎉 VERIFICATION SYSTEM STATUS: SOUND & WORKING",
   "============\x3d============\x3d============\x3d=======",
   "• ✅ Mathematical foundations properly implemented",
   "• ✅ SMT formulas syntactically valid and semantically meaningful",
   "• ✅ No hardcoded verification theater - genuine formal methods",
   "• ✅ Connects abstract math to concrete document properties",
   "• ✅ Ready for Z3 theorem proving integration",
   "• ✅ All 5 critical soundness issues RESOLVED",
   "\n📋 VERIFICATION MODULES FIXED:",
   "============\x3d============\x3d====",
   "1. ambiguity_verification.rs:52-77    - Real SMT formula generation",
   "2. trivector_verification.rs:114-230  - Genuine orthogonality proofs",
   "3. feature_verification.rs:74-314     - Actual document analysis",
   "4. Z3 integration compilation          - Struct/enum field alignment",
   "5. SMT syntax validation               - Comprehensive error handling"]

/-- One run of `demo_verification` from an ambient state: the function reads
no parameters and no state, so a run from any state yields the same list of
printed strings. -/
def demoRun : Unit → List String := fun _ => demo_verification

/-- The byte output of a sequence of `print` calls: each printed string
followed by a newline. -/
def printedOutput (lines : List String) : String :=
  String.join (lines.map (fun l => l ++ "\n"))

/-- Boolean test that the first list of characters is a prefix of the second. -/
def startsWithChars (p s : List Char) : Bool :=
  match p, s with
  | [], _ => true
  | a :: p2, b :: s2 => a == b && startsWithChars p2 s2
  | _ :: _, [] => false

/-- Boolean test that the first list of characters occurs contiguously inside
the second. -/
def occursChars : List Char → List Char → Bool
  | p, [] => startsWithChars p []
  | p, s@(_ :: t) => startsWithChars p s || occursChars p t

/-- Boolean test that `pat` occurs as a contiguous substring of `s`. -/
def strContains (s pat : String) : Bool := occursChars pat.data s.data

/-- The non-empty lines of a block. -/
def nonblankLines (ls : List String) : List String := ls.filter (fun l => !(l == ""))

/-- The three distinct unordered pairs of subspace symbols declared by the
printed orthogonality formula. -/
def subspacePairs : List (String × String) :=
  [("vh_space", "vl_space"), ("vh_space", "vs_space"), ("vl_space", "vs_space")]

/-- The printed orthogonality formula carries a dot-product axiom for the
given pair of subspace symbols, in either order: its universally quantified
assertion guards the zero dot product by membership of v1 and v2 in those two
spaces. -/
def dotPairCovered (a b : String) : Bool :=
  strContains orthogonality_formula ("(and (member v1 " ++ a ++ ") (member v2 " ++ b ++ "))") ||
  strContains orthogonality_formula ("(and (member v1 " ++ b ++ ") (member v2 " ++ a ++ "))")

/-- The printed orthogonality formula carries an empty-intersection assertion
for the given pair of subspace symbols, in either order. -/
def interPairCovered (a b : String) : Bool :=
  strContains orthogonality_formula ("(intersection " ++ a ++ " " ++ b ++ ")") ||
  strContains orthogonality_formula ("(intersection " ++ b ++ " " ++ a ++ ")")

/-- Modelled from the spec: VerificationOutcome, one of Satisfied,
Violated (with a witness or explanation) or SolverError (with a reason); no
such type exists under src/, only the demo script. -/
inductive VerificationOutcome where
  | Satisfied : VerificationOutcome
  | Violated : String → VerificationOutcome
  | SolverError : String → VerificationOutcome
deriving DecidableEq

/-- Whether an outcome is Satisfied. -/
def VerificationOutcome.isSatisfied : VerificationOutcome → Bool
  | .Satisfied => true
  | _ => false

/-- Modelled from the spec: the Solver Adapter on a query that asserts the
desired property directly: a satisfiable constraint set means the property
holds (Satisfied), an unsatisfiable one means Violated. -/
def solveDirect (p : Prop) [Decidable p] (unsatReason : String) : VerificationOutcome :=
  if p then .Satisfied else .Violated unsatReason

/-- Modelled from the spec: the rendered summary entry for one outcome, a
status tag plus detail; SolverError carries a tag different from Violated so
operators can tell a failed property apart from an undetermined one. -/
def renderOutcome : VerificationOutcome → String × String
  | .Satisfied => ("Satisfied", "")
  | .Violated w => ("Violated", w)
  | .SolverError e => ("SolverError", e)

/-- The three checks of a verification run. -/
inductive CheckName where
  | ambiguity : CheckName
  | orthogonality : CheckName
  | feature : CheckName
deriving DecidableEq

/-- Modelled from the spec: the Report, a mapping from check name to
VerificationOutcome, immutable after construction. -/
structure Report where
  ambiguity : VerificationOutcome
  orthogonality : VerificationOutcome
  feature : VerificationOutcome

/-- The outcome a Report records for a given check. -/
def Report.outcome (r : Report) : CheckName → VerificationOutcome
  | .ambiguity => r.ambiguity
  | .orthogonality => r.orthogonality
  | .feature => r.feature

/-- Modelled from the spec: overall document status, Satisfied exactly when
every check is Satisfied. -/
def Report.overallSatisfied (r : Report) : Bool :=
  r.ambiguity.isSatisfied && r.orthogonality.isSatisfied && r.feature.isSatisfied

/-- The checks of a Report whose outcome is not Satisfied. -/
def Report.failingChecks (r : Report) : List CheckName :=
  [CheckName.ambiguity, CheckName.orthogonality, CheckName.feature].filter
    (fun c => !(r.outcome c).isSatisfied)

/-- Satisfiability of the printed ambiguity constraint set (source lines
21-34): integer constants unique_parses and total_parses pinned to 985 and
1000, document_ambiguity equal to 1 minus their exact quotient, and
document_ambiguity below 0.02. -/
def ambiguityFormulaSat : Prop :=
  ∃ (unique_parses total_parses : ℤ) (document_ambiguity : ℚ),
    unique_parses = 985 ∧ total_parses = 1000 ∧
    document_ambiguity = 1 - (unique_parses : ℚ) / (total_parses : ℚ) ∧
    document_ambiguity < 2 / 100

instance ambiguityFormulaSatDec : Decidable ambiguityFormulaSat :=
  decidable_of_iff True
    ⟨fun _ => ⟨985, 1000, 1 - ((985 : ℤ) : ℚ) / ((1000 : ℤ) : ℚ), rfl, rfl, rfl, by norm_num⟩,
     fun _ => trivial⟩

/-- The Solver Adapter outcome on the printed ambiguity constraint set. -/
def ambiguityFormulaOutcome : VerificationOutcome :=
  solveDirect ambiguityFormulaSat "ambiguity not below 0.02"

/-- Modelled from the spec: satisfiability of the constraint set the Formula
Builder emits for the ambiguity check on measured counts (the Formula Builder
is not under src/; only the demo script is): document_ambiguity equal to
1 minus the exact rational unique/total, and below 0.02. -/
def ambiguityCheckSat (unique total : ℕ) : Prop :=
  ∃ document_ambiguity : ℚ,
    document_ambiguity = 1 - (unique : ℚ) / (total : ℚ) ∧ document_ambiguity < 2 / 100

instance ambiguityCheckSatDec (unique total : ℕ) : Decidable (ambiguityCheckSat unique total) :=
  decidable_of_iff (1 - (unique : ℚ) / (total : ℚ) < 2 / 100)
    ⟨fun h => ⟨_, rfl, h⟩, fun ⟨_, ha, h⟩ => ha ▸ h⟩

/-- Modelled from the spec: the Solver Adapter outcome of the ambiguity check
on measured counts. -/
def ambiguityCheckOutcome (unique total : ℕ) : VerificationOutcome :=
  solveDirect (ambiguityCheckSat unique total) "ambiguity not below 0.02"

/-- Satisfiability of the printed feature constraint set (source lines
92-106), with the three presence booleans bound the way the Formula Builder
of the spec binds them to the measured flags; the printed text binds all
three to true. -/
def featureCheckSat (m t r : Bool) : Prop :=
  ∃ (has_meta_block has_types_block has_rules_block feature_implemented : Bool),
    has_meta_block = m ∧ has_types_block = t ∧ has_rules_block = r ∧
    feature_implemented = (has_meta_block && has_types_block && has_rules_block) ∧
    feature_implemented = true

/-- Modelled from the spec: satisfiability of the orthogonality check
dimension assertions for a declared dimension triple: the declared values
conjoined with the fixed-total assertion of the printed formula,
vh_dim + vl_dim + vs_dim = 1536 (source line 73). -/
def orthDimSat (h l s : ℕ) : Prop :=
  ∃ vh_dim vl_dim vs_dim : ℤ,
    vh_dim = h ∧ vl_dim = l ∧ vs_dim = s ∧ vh_dim + vl_dim + vs_dim = 1536

instance orthDimSatDec (h l s : ℕ) : Decidable (orthDimSat h l s) :=
  decidable_of_iff (h + l + s = 1536)
    ⟨fun he => ⟨h, l, s, rfl, rfl, rfl, by exact_mod_cast he⟩,
     fun ⟨a, b, c, ha, hb, hc, hsum⟩ => by
       subst ha; subst hb; subst hc; exact_mod_cast hsum⟩

/-- Modelled from the spec: the Solver Adapter outcome of the orthogonality
check dimension assertions. -/
def orthDimOutcome (h l s : ℕ) : VerificationOutcome :=
  solveDirect (orthDimSat h l s) "dimension sum differs from 1536"

/-- Modelled from the spec: the error class for missing or invalid measured
quantities reported by the Document Analyzer. -/
inductive AnalysisError where
  | zeroTotalParses : AnalysisError
  | uniqueExceedsTotal : AnalysisError
  | badDimensions : AnalysisError
deriving DecidableEq

/-- The required structural blocks of an AISP document. -/
inductive BlockId where
  | meta : BlockId
  | types : BlockId
  | rules : BlockId
deriving DecidableEq

/-- Modelled from the spec: the raw quantities the Document Analyzer reads
off a document (parse counts, declared subspace dimensions, structural
blocks found). -/
structure RawDocument where
  unique_parse_count : ℕ
  total_parse_count : ℕ
  vector_dims : ℤ × ℤ × ℤ
  structural_blocks_present : List BlockId

/-- Modelled from the spec: MeasuredFacts, the validated output of the
Document Analyzer. -/
structure MeasuredFacts where
  unique_parse_count : ℕ
  total_parse_count : ℕ
  vector_dims : ℕ × ℕ × ℕ
  structural_blocks_present : List BlockId

/-- Modelled from the spec: the Document Analyzer; it fails with an
AnalysisError when total_parse_count is zero (invalid input, division
undefined downstream), when unique exceeds total, or when a declared
dimension is negative. -/
def analyzeDocument (d : RawDocument) : Except AnalysisError MeasuredFacts :=
  if d.total_parse_count = 0 then .error .zeroTotalParses
  else if d.total_parse_count < d.unique_parse_count then .error .uniqueExceedsTotal
  else if d.vector_dims.1 < 0 || d.vector_dims.2.1 < 0 || d.vector_dims.2.2 < 0 then
    .error .badDimensions
  else
    .ok ⟨d.unique_parse_count, d.total_parse_count,
         (d.vector_dims.1.toNat, d.vector_dims.2.1.toNat, d.vector_dims.2.2.toNat),
         d.structural_blocks_present⟩

/-- Modelled from the spec: the Formula Builder serialization of the
ambiguity constraint set for measured counts; a pure data transformation
with no special case for total = 0. -/
def buildAmbiguityConstraints (unique total : ℕ) : List String :=
  ["(declare-const unique_parses Int)",
   "(declare-const total_parses Int)",
   "(declare-const document_ambiguity Real)",
   "(assert (= unique_parses " ++ toString unique ++ "))",
   "(assert (= total_parses " ++ toString total ++ "))",
   "(assert (= document_ambiguity (- 1.0 (/ (to_real unique_parses) (to_real total_parses)))))",
   "(assert (< document_ambiguity 0.02))"]

/-- Modelled from the spec: the pipeline Document, Analyzer, Formula Builder
for the ambiguity check; the builder runs only on Analyzer success. -/
def ambiguityPipeline (d : RawDocument) : Except AnalysisError (List String) :=
  (analyzeDocument d).map
    (fun f => buildAmbiguityConstraints f.unique_parse_count f.total_parse_count)

/-- A directly asserted query is Satisfied exactly when its constraint set is
satisfiable. -/
theorem solveDirect_satisfied_iff (p : Prop) [Decidable p] (reason : String) :
    solveDirect p reason = .Satisfied ↔ p := by
  unfold solveDirect
  by_cases h : p <;> simp [h]

/-- C1: the printed output embeds the verification numbers as literal
constants: the ambiguity formula (element 5 of the output of the
argumentless `demo_verification`) pins unique_parses to 985 and total_parses
to 1000, the orthogonality formula (element 12) asserts the dimension sum
1536, and the feature formula (element 19) asserts all three presence
booleans true; no printed number is derived from an input. -/
theorem literal_constants_embedded :
    demo_verification[5]? = some ambiguity_formula ∧
    demo_verification[12]? = some orthogonality_formula ∧
    demo_verification[19]? = some feature_formula ∧
    ambiguity_formula_lines.contains "(assert (= unique_parses 985))" = true ∧
    ambiguity_formula_lines.contains "(assert (= total_parses 1000))" = true ∧
    orthogonality_formula_lines.contains "(assert (= (+ vh_dim vl_dim vs_dim) 1536))" = true ∧
    feature_formula_lines.contains "(assert (= has_meta_block true))" = true ∧
    feature_formula_lines.contains "(assert (= has_types_block true)) " = true ∧
    feature_formula_lines.contains "(assert (= has_rules_block true))" = true := by
  refine ⟨rfl, rfl, rfl, ?_, ?_, ?_, ?_, ?_, ?_⟩ <;> decide

/-- C2: `demo_verification` is deterministic: a run from any ambient state
produces the same sequence of printed strings, hence byte-identical output. -/
theorem demo_deterministic (s1 s2 : Unit) :
    demoRun s1 = demoRun s2 ∧ printedOutput (demoRun s1) = printedOutput (demoRun s2) :=
  ⟨rfl, rfl⟩

/-- C9: `demo_verification` terminates: its embedding is a total function
whose output is a finite sequence of 38 printed strings. -/
theorem demo_finite_output : demo_verification.length = 38 := rfl

/-- C10: only the ambiguity and feature blocks request a model: the ambiguity
block ends with (check-sat) then (get-model), the feature block ends with
(check-sat) then (get-value ...), and the orthogonality block ends with
(check-sat) alone, containing no model or witness request at all. -/
theorem model_requests :
    (nonblankLines ambiguity_formula_lines).reverse.take 2 =
      ["(get-model)", "(check-sat)"] ∧
    (nonblankLines feature_formula_lines).reverse.take 2 =
      ["(get-value (has_meta_block has_types_block has_rules_block feature_implemented))",
       "(check-sat)"] ∧
    (nonblankLines orthogonality_formula_lines).reverse.take 1 = ["(check-sat)"] ∧
    orthogonality_formula_lines.all
      (fun l => !(strContains l "(get-model)") && !(strContains l "(get-value")) = true := by
  refine ⟨?_, ?_, ?_, ?_⟩ <;> decide

set_option maxRecDepth 8192 in
/-- C4 counterexample: the printed orthogonality formula does not cover all
three distinct subspace pairs: on the pair (vh_space, vl_space) it has
neither a dot-product axiom nor an empty-intersection assertion, so the
claim as stated is false. -/
theorem orth_coverage_counterexample :
    ¬ (∀ p ∈ subspacePairs, dotPairCovered p.1 p.2 = true ∧ interPairCovered p.1 p.2 = true) := by
  intro h
  have hp := h ("vh_space", "vl_space") (by decide)
  have : dotPairCovered "vh_space" "vl_space" = true := hp.1
  exact absurd this (by decide)

set_option maxRecDepth 8192 in
/-- C4 amended: the dot-product axiom of the printed orthogonality formula
covers only the (vh_space, vs_space) pair, and the empty-intersection
assertions cover only the (vh_space, vs_space) and (vl_space, vs_space)
pairs; the (vh_space, vl_space) pair is covered by neither, and the
(vl_space, vs_space) pair has no dot-product axiom. -/
theorem orth_coverage_amended :
    dotPairCovered "vh_space" "vs_space" = true ∧
    dotPairCovered "vh_space" "vl_space" = false ∧
    dotPairCovered "vl_space" "vs_space" = false ∧
    interPairCovered "vh_space" "vs_space" = true ∧
    interPairCovered "vl_space" "vs_space" = true ∧
    interPairCovered "vh_space" "vl_space" = false := by
  refine ⟨?_, ?_, ?_, ?_, ?_, ?_⟩ <;> decide

/-- C3: with the embedded constants unique = 985 and total = 1000 the exact
rational ambiguity 1 - 985/1000 equals 3/200 and is below 0.02, the printed
ambiguity constraint set is satisfiable and its check Satisfied; and for all
measured counts unique ≤ total with total positive the ambiguity check is
Satisfied exactly when 1 - unique/total < 0.02. -/
theorem ambiguity_check_correct :
    (1 - (985 : ℚ) / 1000 = 3 / 200) ∧ ((3 : ℚ) / 200 < 2 / 100) ∧
    ambiguityFormulaSat ∧ ambiguityFormulaOutcome = .Satisfied ∧
    ∀ unique total : ℕ, unique ≤ total → 0 < total →
      (ambiguityCheckOutcome unique total = .Satisfied ↔
        1 - (unique : ℚ) / (total : ℚ) < 2 / 100) := by
  have hsat : ambiguityFormulaSat :=
    ⟨985, 1000, 1 - ((985 : ℤ) : ℚ) / ((1000 : ℤ) : ℚ), rfl, rfl, rfl, by norm_num⟩
  refine ⟨by norm_num, by norm_num, hsat, ?_, ?_⟩
  · exact (solveDirect_satisfied_iff _ _).mpr hsat
  · intro unique total _ _
    rw [ambiguityCheckOutcome, solveDirect_satisfied_iff]
    exact ⟨fun ⟨_, ha, h⟩ => ha ▸ h, fun h => ⟨_, rfl, h⟩⟩

/-- C3 witness: the general part of the ambiguity theorem applied at the
embedded counts 985 and 1000. -/
theorem ambiguity_check_correct_witness :
    ambiguityCheckOutcome 985 1000 = VerificationOutcome.Satisfied ↔
      1 - ((985 : ℕ) : ℚ) / ((1000 : ℕ) : ℚ) < 2 / 100 :=
  ambiguity_check_correct.2.2.2.2 985 1000 (by decide) (by decide)

/-- C5: the feature check is Satisfied exactly when all three presence
booleans hold: the printed constraint set (all three bound to true) is
satisfiable, and binding any one of them to false instead makes the same
constraint set unsatisfiable. -/
theorem feature_check_iff :
    (∀ m t r : Bool, featureCheckSat m t r ↔ (m && t && r) = true) ∧
    featureCheckSat true true true ∧
    ¬ featureCheckSat false true true ∧
    ¬ featureCheckSat true false true ∧
    ¬ featureCheckSat true true false := by
  have key : ∀ m t r : Bool, featureCheckSat m t r ↔ (m && t && r) = true := by
    intro m t r
    constructor
    · rintro ⟨a, b, c, f, rfl, rfl, rfl, rfl, h⟩
      exact h
    · intro h
      exact ⟨m, t, r, m && t && r, rfl, rfl, rfl, rfl, h⟩
  refine ⟨key, (key true true true).mpr (by decide), ?_, ?_, ?_⟩
  · intro h; exact absurd ((key false true true).mp h) (by decide)
  · intro h; exact absurd ((key true false true).mp h) (by decide)
  · intro h; exact absurd ((key true true false).mp h) (by decide)

/-- C5 witness: the feature equivalence applied at the bindings of the
printed constraint set, all three presence booleans true. -/
theorem feature_check_iff_witness :
    featureCheckSat true true true ∧ (true && true && true) = true :=
  ⟨feature_check_iff.2.1, (feature_check_iff.1 true true true).mp feature_check_iff.2.1⟩

/-- C6: for every dimension triple (h, l, s) of non-negative integers whose
sum is not 1536, the declared values conjoined with the fixed-total
assertion vh_dim + vl_dim + vs_dim = 1536 are unsatisfiable, and the
orthogonality dimension check reports Violated. -/
theorem orth_dim_violated (h l s : ℕ) (hne : h + l + s ≠ 1536) :
    ¬ orthDimSat h l s ∧
    orthDimOutcome h l s = .Violated "dimension sum differs from 1536" := by
  have hns : ¬ orthDimSat h l s := by
    rintro ⟨a, b, c, rfl, rfl, rfl, hsum⟩
    exact hne (by exact_mod_cast hsum)
  refine ⟨hns, ?_⟩
  unfold orthDimOutcome solveDirect
  rw [if_neg hns]

/-- C6 witness: the dimension theorem applied at the triple (1, 2, 3). -/
theorem orth_dim_violated_witness :
    orthDimOutcome 1 2 3 = VerificationOutcome.Violated "dimension sum differs from 1536" :=
  (orth_dim_violated 1 2 3 (by decide)).2

/-- C7: when total_parse_count is zero the Document Analyzer fails with an
AnalysisError, so the ambiguity pipeline never invokes the Formula Builder
for that document; the builder itself has no special case for zero, always
emitting the same seven-line constraint shape. -/
theorem zero_total_rejected (d : RawDocument) (h : d.total_parse_count = 0) :
    analyzeDocument d = .error .zeroTotalParses ∧
    ambiguityPipeline d = .error .zeroTotalParses ∧
    ∀ unique total : ℕ, (buildAmbiguityConstraints unique total).length = 7 := by
  have h1 : analyzeDocument d = .error .zeroTotalParses := by
    unfold analyzeDocument
    rw [if_pos h]
  refine ⟨h1, ?_, fun unique total => rfl⟩
  unfold ambiguityPipeline
  rw [h1]
  rfl

/-- C7 witness: the zero-total theorem applied to a concrete document with
985 unique parses and 0 total parses. -/
theorem zero_total_rejected_witness :
    ambiguityPipeline ⟨985, 0, (512, 512, 512), [BlockId.meta, BlockId.types, BlockId.rules]⟩ =
      Except.error AnalysisError.zeroTotalParses :=
  (zero_total_rejected ⟨985, 0, (512, 512, 512), [BlockId.meta, BlockId.types, BlockId.rules]⟩
    rfl).2.1

/-- C8: the overall status of a Report is Satisfied exactly when all three
per-check outcomes are Satisfied; every check whose outcome is not Satisfied
appears among the failing checks of the Report; and the rendered summary
tags Violated and SolverError differently. -/
theorem report_overall_correct (r : Report) :
    (r.overallSatisfied = true ↔ ∀ c : CheckName, (r.outcome c).isSatisfied = true) ∧
    (∀ c : CheckName, (r.outcome c).isSatisfied = false → c ∈ r.failingChecks) ∧
    (∀ w e : String,
      (renderOutcome (VerificationOutcome.Violated w)).1 ≠
        (renderOutcome (VerificationOutcome.SolverError e)).1) := by
  obtain ⟨a, b, f⟩ := r
  refine ⟨?_, ?_, ?_⟩
  · constructor
    · intro h c
      simp only [Report.overallSatisfied, Bool.and_eq_true] at h
      cases c
      · exact h.1.1
      · exact h.1.2
      · exact h.2
    · intro h
      simp only [Report.overallSatisfied, Bool.and_eq_true]
      exact ⟨⟨h CheckName.ambiguity, h CheckName.orthogonality⟩, h CheckName.feature⟩
  · intro c h
    simp only [Report.failingChecks, List.mem_filter]
    refine ⟨by cases c <;> decide, ?_⟩
    rw [h]
    rfl
  · intro w e
    show ("Violated" : String) ≠ "SolverError"
    decide

/-- C8 witness: the Report theorem applied to a concrete report whose
orthogonality check is Violated. -/
theorem report_overall_correct_witness :
    CheckName.orthogonality ∈
      (Report.mk VerificationOutcome.Satisfied (VerificationOutcome.Violated "dims")
        VerificationOutcome.Satisfied).failingChecks :=
  (report_overall_correct
    (Report.mk VerificationOutcome.Satisfied (VerificationOutcome.Violated "dims")
      VerificationOutcome.Satisfied)).2.1 CheckName.orthogonality (by decide)
